import Mathlib

/-!
Shallow embedding of the iscape-jobboard application (Django job board):
data model from jobboard/models.py, form validation from jobboard/forms.py,
request handlers from jobboard/views.py, configuration defaults from
jobboard/__init__.py.  Dates are modelled as day numbers (Nat), datetimes
as timestamps (Nat).
-/

namespace JobBoard

/-- Configuration values, from jobboard/__init__.py: the JOBBOARD_* settings. -/
structure Config where
  fromEmail : String
  postsExpireDays : Nat
  applicantsPerPage : Nat
  jobsPerPage : Nat
  applicantsOnIndex : Nat
  jobsOnIndex : Nat
deriving Repr, DecidableEq

/-- Default configuration from jobboard/__init__.py: every JOBBOARD_* setting
absent from the Django settings object is given its default there
(FROM_EMAIL falls back to SERVER_EMAIL, expire days 30, per-page 15, on-index 5). -/
def defaultConfig (serverEmail : String) : Config :=
  { fromEmail := serverEmail
    postsExpireDays := 30
    applicantsPerPage := 15
    jobsPerPage := 15
    applicantsOnIndex := 5
    jobsOnIndex := 5 }

/-- models.Position: an available position, referenced by both post kinds. -/
structure Position where
  id : Nat
  name : String
deriving Repr, DecidableEq

/-- models.JobPost: a user-submitted job offer.  The position foreign key is
modelled by the referenced Position id. -/
structure JobPost where
  approved : Bool
  when_posted : Nat
  expiration_date : Nat
  posters_name : String
  work_hours : String
  description : String
  position : Nat
  email : String
  contact_information : String
deriving Repr, DecidableEq

/-- models.ApplicantPost: a user-submitted post of a person seeking employment. -/
structure ApplicantPost where
  approved : Bool
  when_posted : Nat
  expiration_date : Nat
  first_name : String
  last_name : String
  phone_number : String
  email : String
  position : Nat
  resume : String
  full_time : Bool
  part_time : Bool
deriving Repr, DecidableEq

/-- The persistent store: the database tables of jobboard/models.py.
NotifyEmail rows are represented by their email strings. -/
structure Store where
  positions : List Position
  jobs : List JobPost
  applicants : List ApplicantPost
  notifyEmails : List String
deriving Repr, DecidableEq

/-- models.calculate_post_expires: today plus JOBBOARD_POSTS_EXPIRE_DAYS days. -/
def calculate_post_expires (cfg : Config) (today : Nat) : Nat :=
  today + cfg.postsExpireDays

/-- ApplicantPost.hours_string from jobboard/models.py: the comma-joined list of
the selected hour kinds, or "unspecified" when neither flag is set. -/
def hours_string (a : ApplicantPost) : String :=
  let hours :=
    (if a.full_time then ["full time"] else []) ++
    (if a.part_time then ["part time"] else [])
  if hours.isEmpty then "unspecified" else String.intercalate ", " hours

/-- The filter applied by every listing view in jobboard/views.py:
approved=True, expiration_date__gte=today. -/
def jobLive (today : Nat) (j : JobPost) : Bool :=
  j.approved && decide (today ≤ j.expiration_date)

/-- The same listing filter for applicant posts. -/
def applicantLive (today : Nat) (a : ApplicantPost) : Bool :=
  a.approved && decide (today ≤ a.expiration_date)

/-- The default ordering of JobPost querysets: Meta.ordering puts the larger
when_posted first. -/
def jobNewerFirst (a b : JobPost) : Prop :=
  b.when_posted ≤ a.when_posted

instance : DecidableRel jobNewerFirst :=
  fun a b => inferInstanceAs (Decidable (b.when_posted ≤ a.when_posted))

instance : IsTotal JobPost jobNewerFirst :=
  ⟨fun a b => Nat.le_total b.when_posted a.when_posted⟩

instance : IsTrans JobPost jobNewerFirst :=
  ⟨fun _ _ _ h1 h2 => Nat.le_trans h2 h1⟩

/-- The default ordering of ApplicantPost querysets: Meta.ordering puts the
larger when_posted first. -/
def applicantNewerFirst (a b : ApplicantPost) : Prop :=
  b.when_posted ≤ a.when_posted

instance : DecidableRel applicantNewerFirst :=
  fun a b => inferInstanceAs (Decidable (b.when_posted ≤ a.when_posted))

instance : IsTotal ApplicantPost applicantNewerFirst :=
  ⟨fun a b => Nat.le_total b.when_posted a.when_posted⟩

instance : IsTrans ApplicantPost applicantNewerFirst :=
  ⟨fun _ _ _ h1 h2 => Nat.le_trans h2 h1⟩

/-- The JobPost queryset of the listing views: filter approved and non-expired,
ordered by when_posted descending (the Meta ordering of the model). -/
def liveJobs (today : Nat) (st : Store) : List JobPost :=
  List.insertionSort jobNewerFirst (st.jobs.filter (jobLive today))

/-- The ApplicantPost queryset of the listing views. -/
def liveApplicants (today : Nat) (st : Store) : List ApplicantPost :=
  List.insertionSort applicantNewerFirst (st.applicants.filter (applicantLive today))

/-- views.index, job part: the live jobs sliced to JOBBOARD_JOBS_ON_INDEX. -/
def indexJobs (cfg : Config) (today : Nat) (st : Store) : List JobPost :=
  (liveJobs today st).take cfg.jobsOnIndex

/-- views.index, applicant part: the live applicants sliced to
JOBBOARD_APPLICANTS_ON_INDEX. -/
def indexApplicants (cfg : Config) (today : Nat) (st : Store) : List ApplicantPost :=
  (liveApplicants today st).take cfg.applicantsOnIndex

/-- views.job_list: all approved, non-expired job posts (pagination is a view
over this full queryset). -/
def job_list (today : Nat) (st : Store) : List JobPost :=
  liveJobs today st

/-- views.applicant_list: all approved, non-expired applicant posts. -/
def applicant_list (today : Nat) (st : Store) : List ApplicantPost :=
  liveApplicants today st

/-- forms clean_posters_name / clean_first_name / clean_last_name: Python
value.split(chr 10)[0], the part of the string before its first newline. -/
def firstLine (s : String) : String :=
  String.mk (s.data.takeWhile (fun c => c ≠ '\n'))

/-- Split a character list at its first at-sign, when one is present. -/
def splitAtSign : List Char → Option (List Char × List Char)
  | [] => none
  | c :: cs =>
    if c = '@' then some ([], cs)
    else
      match splitAtSign cs with
      | none => none
      | some (l, r) => some (c :: l, r)

/-- Modelled from the spec: Django's EmailField check, which is framework code
outside this repository; the spec only requires that an email field, if
present, holds a syntactically valid address (a nonempty local part, one
at-sign, and a domain containing a dot). -/
def isValidEmail (s : String) : Bool :=
  match splitAtSign s.data with
  | none => false
  | some (lp, dom) =>
    (!lp.isEmpty) && (!dom.isEmpty) && (!dom.contains '@') && dom.contains '.'

/-- Raw POST data of the job submission form (forms.JobPost).  A missing text
field arrives as the empty string; the position select is the chosen
Position id, if any. -/
structure JobPostInput where
  posters_name : String
  work_hours : String
  description : String
  position : Option Nat
  email : String
  contact_information : String
deriving Repr, DecidableEq

/-- Raw POST data of the applicant submission form (forms.ApplicantPost).
Checkbox fields arrive as booleans (absent means false). -/
structure ApplicantPostInput where
  first_name : String
  last_name : String
  phone_number : String
  position : Option Nat
  email : String
  resume : String
  full_time : Bool
  part_time : Bool
  other_time : Bool
deriving Repr, DecidableEq

/-- Validation of one form CharField: required rejects the empty value, and a
value longer than max_length is rejected. -/
def charFieldErrors (nm : String) (maxLen : Nat) (v : String) : List String :=
  if v = "" then [nm] else if maxLen < v.length then [nm] else []

/-- ModelChoiceField validation: the submitted choice must be the id of an
existing Position row. -/
def positionExists (positions : List Position) : Option Nat → Bool
  | none => false
  | some pid => positions.any (fun p => p.id == pid)

/-- Field-level errors of forms.JobPost: posters_name required (max 80),
work_hours optional (max 80), description optional, position a valid choice,
email optional but must be valid when given, contact_information required. -/
def jobPostErrors (positions : List Position) (inp : JobPostInput) : List String :=
  charFieldErrors "posters_name" 80 inp.posters_name ++
  (if 80 < inp.work_hours.length then ["work_hours"] else []) ++
  (if positionExists positions inp.position then [] else ["position"]) ++
  (if inp.email = "" || isValidEmail inp.email then [] else ["email"]) ++
  (if inp.contact_information = "" then ["contact_information"] else [])

/-- Field-level errors of forms.ApplicantPost: first_name (max 30), last_name
(max 40), phone_number (max 25) and resume are required; position must be a
valid choice; email is optional but must be valid when given; the hour
checkboxes are never a source of errors (required=False). -/
def applicantPostErrors (positions : List Position) (inp : ApplicantPostInput) :
    List String :=
  charFieldErrors "first_name" 30 inp.first_name ++
  charFieldErrors "last_name" 40 inp.last_name ++
  charFieldErrors "phone_number" 25 inp.phone_number ++
  (if positionExists positions inp.position then [] else ["position"]) ++
  (if inp.email = "" || isValidEmail inp.email then [] else ["email"]) ++
  (if inp.resume = "" then ["resume"] else [])

/-- An outbound email: subject, body, from address, recipient list. -/
structure Email where
  subject : String
  body : String
  sender : String
  recipients : List String
deriving Repr, DecidableEq

/-- Modelled from the spec: the rendering of template
jobboard/jobpost_email.txt (the template file is not part of src/); the spec
only requires the email to contain a rendering of the new post. -/
def renderJobEmailBody (j : JobPost) : String :=
  "New job post: " ++ j.posters_name ++ " / " ++ j.description

/-- Modelled from the spec: the rendering of template
jobboard/jobpost_email_subject.txt. -/
def renderJobEmailSubject (j : JobPost) : String :=
  "New job post from " ++ j.posters_name

/-- Modelled from the spec: the rendering of template
jobboard/applicantpost_email.txt. -/
def renderApplicantEmailBody (a : ApplicantPost) : String :=
  "New applicant post: " ++ a.first_name ++ " " ++ a.last_name ++ " / " ++ a.resume

/-- Modelled from the spec: the rendering of template
jobboard/applicantpost_email_subject.txt. -/
def renderApplicantEmailSubject (a : ApplicantPost) : String :=
  "New applicant post from " ++ a.first_name

/-- The observable outcome of a submission POST: the form re-rendered with its
errors, a redirect, or a propagated mail-transport failure. -/
inductive Outcome where
  | rendered (errors : List String)
  | redirect (target : String)
  | mailError
deriving Repr, DecidableEq

/-- Result of handling a submission POST: outcome, resulting store, and the
emails that were successfully dispatched. -/
structure SubmitResult where
  outcome : Outcome
  store : Store
  sent : List Email
deriving Repr, DecidableEq

/-- The models.JobPost record built by views.submit_job from cleaned form data:
name fields pass through the form clean methods, expiration_date comes from
calculate_post_expires, when_posted is now, approved keeps its model default
False. -/
def newJobPost (cfg : Config) (today now : Nat) (inp : JobPostInput) : JobPost :=
  { approved := false
    when_posted := now
    expiration_date := calculate_post_expires cfg today
    posters_name := firstLine inp.posters_name
    work_hours := inp.work_hours
    description := inp.description
    position := inp.position.getD 0
    email := inp.email
    contact_information := inp.contact_information }

/-- The models.ApplicantPost record built by views.submit_applicant from
cleaned form data.  Note other_time is never read. -/
def newApplicantPost (cfg : Config) (today now : Nat) (inp : ApplicantPostInput) :
    ApplicantPost :=
  { approved := false
    when_posted := now
    expiration_date := calculate_post_expires cfg today
    first_name := firstLine inp.first_name
    last_name := firstLine inp.last_name
    phone_number := inp.phone_number
    email := inp.email
    position := inp.position.getD 0
    resume := inp.resume
    full_time := inp.full_time
    part_time := inp.part_time }

/-- views.submit_job, POST branch: validate; on failure re-render the form with
the errors and leave the store unchanged; on success save the new record,
then, when NotifyEmail rows exist, send one email to all of them with
fail_silently=False (a transport failure, modelled by mailOk=false,
propagates after the save). -/
def submit_job (cfg : Config) (today now : Nat) (mailOk : Bool) (st : Store)
    (inp : JobPostInput) : SubmitResult :=
  let errors := jobPostErrors st.positions inp
  if errors.isEmpty then
    let post := newJobPost cfg today now inp
    let st2 : Store := { st with jobs := st.jobs ++ [post] }
    if st.notifyEmails.isEmpty then
      { outcome := Outcome.redirect "jobboard_thank_you", store := st2, sent := [] }
    else if mailOk then
      { outcome := Outcome.redirect "jobboard_thank_you"
        store := st2
        sent := [{ subject := renderJobEmailSubject post
                   body := renderJobEmailBody post
                   sender := cfg.fromEmail
                   recipients := st.notifyEmails }] }
    else
      { outcome := Outcome.mailError, store := st2, sent := [] }
  else
    { outcome := Outcome.rendered errors, store := st, sent := [] }

/-- views.submit_applicant, POST branch: same shape as submit_job. -/
def submit_applicant (cfg : Config) (today now : Nat) (mailOk : Bool) (st : Store)
    (inp : ApplicantPostInput) : SubmitResult :=
  let errors := applicantPostErrors st.positions inp
  if errors.isEmpty then
    let post := newApplicantPost cfg today now inp
    let st2 : Store := { st with applicants := st.applicants ++ [post] }
    if st.notifyEmails.isEmpty then
      { outcome := Outcome.redirect "jobboard_thank_you", store := st2, sent := [] }
    else if mailOk then
      { outcome := Outcome.redirect "jobboard_thank_you"
        store := st2
        sent := [{ subject := renderApplicantEmailSubject post
                   body := renderApplicantEmailBody post
                   sender := cfg.fromEmail
                   recipients := st.notifyEmails }] }
    else
      { outcome := Outcome.mailError, store := st2, sent := [] }
  else
    { outcome := Outcome.rendered errors, store := st, sent := [] }

/-- A concrete configuration used by the witness theorems. -/
def cfgW : Config := defaultConfig "admin@example.com"

/-- A concrete approved job post whose expiration date is the boundary day 100. -/
def jobW : JobPost :=
  { approved := true
    when_posted := 7
    expiration_date := 100
    posters_name := "Ann"
    work_hours := ""
    description := ""
    position := 1
    email := ""
    contact_information := "call" }

/-- A concrete store with one position, one approved job and one notify address. -/
def storeW : Store :=
  { positions := [{ id := 1, name := "cook" }]
    jobs := [jobW]
    applicants := []
    notifyEmails := ["notify@example.com"] }

/-- A concrete store with no notify addresses. -/
def storeQuietW : Store :=
  { positions := [{ id := 1, name := "cook" }]
    jobs := []
    applicants := []
    notifyEmails := [] }

/-- A concrete valid job submission whose name field spans two lines. -/
def jiW : JobPostInput :=
  { posters_name := "Alice\nOwner"
    work_hours := "9-5"
    description := "cooking"
    position := some 1
    email := "alice@example.com"
    contact_information := "call 555" }

/-- A concrete valid applicant submission with neither hour flag selected. -/
def aiW : ApplicantPostInput :=
  { first_name := "Bob"
    last_name := "Lee"
    phone_number := "555-1234"
    position := some 1
    email := ""
    resume := "my resume"
    full_time := false
    part_time := false
    other_time := false }

/-- A concrete job submission missing its required posters_name field. -/
def jiBadW : JobPostInput :=
  { posters_name := ""
    work_hours := ""
    description := ""
    position := some 1
    email := ""
    contact_information := "call 555" }

theorem mem_liveJobs_iff (today : Nat) (st : Store) (j : JobPost) :
    j ∈ liveJobs today st ↔
      j ∈ st.jobs ∧ j.approved = true ∧ today ≤ j.expiration_date := by
  unfold liveJobs
  rw [List.Perm.mem_iff (List.perm_insertionSort _ _), List.mem_filter]
  simp [jobLive, and_assoc]

theorem mem_liveApplicants_iff (today : Nat) (st : Store) (a : ApplicantPost) :
    a ∈ liveApplicants today st ↔
      a ∈ st.applicants ∧ a.approved = true ∧ today ≤ a.expiration_date := by
  unfold liveApplicants
  rw [List.Perm.mem_iff (List.perm_insertionSort _ _), List.mem_filter]
  simp [applicantLive, and_assoc]

/-- C1: a valid job or applicant submission persists exactly one new record,
with when_posted = now, expiration_date = today + JOBBOARD_POSTS_EXPIRE_DAYS
(default 30), approved = false, and redirects to the thank-you page. -/
theorem submission_persists_one_pending_post
    (e : String) (cfg : Config) (today now : Nat) (st : Store)
    (ji : JobPostInput) (ai : ApplicantPostInput)
    (hj : jobPostErrors st.positions ji = [])
    (ha : applicantPostErrors st.positions ai = []) :
    (submit_job cfg today now true st ji).store.jobs
        = st.jobs ++ [newJobPost cfg today now ji] ∧
    (submit_job cfg today now true st ji).store.applicants = st.applicants ∧
    (newJobPost cfg today now ji).when_posted = now ∧
    (newJobPost cfg today now ji).expiration_date = today + cfg.postsExpireDays ∧
    (newJobPost cfg today now ji).approved = false ∧
    (submit_job cfg today now true st ji).outcome
        = Outcome.redirect "jobboard_thank_you" ∧
    (submit_applicant cfg today now true st ai).store.applicants
        = st.applicants ++ [newApplicantPost cfg today now ai] ∧
    (submit_applicant cfg today now true st ai).store.jobs = st.jobs ∧
    (newApplicantPost cfg today now ai).when_posted = now ∧
    (newApplicantPost cfg today now ai).expiration_date
        = today + cfg.postsExpireDays ∧
    (newApplicantPost cfg today now ai).approved = false ∧
    (submit_applicant cfg today now true st ai).outcome
        = Outcome.redirect "jobboard_thank_you" ∧
    (defaultConfig e).postsExpireDays = 30 := by
  refine ⟨?_, ?_, rfl, rfl, rfl, ?_, ?_, ?_, rfl, rfl, rfl, ?_, rfl⟩ <;>
    simp only [submit_job, submit_applicant, hj, ha, List.isEmpty_nil, if_true] <;>
    by_cases hn : st.notifyEmails.isEmpty <;>
    simp [hn]

/-- Witness for C1 at a concrete valid job and applicant submission. -/
theorem submission_persists_one_pending_post_witness :
    jobPostErrors storeW.positions jiW = [] ∧
    applicantPostErrors storeW.positions aiW = [] ∧
    (submit_job cfgW 100 5000 true storeW jiW).store.jobs
        = storeW.jobs ++ [newJobPost cfgW 100 5000 jiW] :=
  ⟨by decide, by decide,
    (submission_persists_one_pending_post "admin@example.com" cfgW 100 5000 storeW
      jiW aiW (by decide) (by decide)).1⟩

/-- C6: the index view returns at most JOBBOARD_JOBS_ON_INDEX job posts and at
most JOBBOARD_APPLICANTS_ON_INDEX applicant posts, whatever the store holds;
both limits default to 5. -/
theorem index_respects_limits (e : String) (cfg : Config) (today : Nat) (st : Store) :
    (indexJobs cfg today st).length ≤ cfg.jobsOnIndex ∧
    (indexApplicants cfg today st).length ≤ cfg.applicantsOnIndex ∧
    (defaultConfig e).jobsOnIndex = 5 ∧
    (defaultConfig e).applicantsOnIndex = 5 :=
  ⟨List.length_take_le _ _, List.length_take_le _ _, rfl, rfl⟩

/-- C7: every listing comes out ordered by when_posted descending: each
returned post was posted no earlier than the next one. -/
theorem listings_ordered_newest_first (cfg : Config) (today : Nat) (st : Store) :
    List.Chain' (fun a b => b.when_posted ≤ a.when_posted) (indexJobs cfg today st) ∧
    List.Chain' (fun a b => b.when_posted ≤ a.when_posted) (job_list today st) ∧
    List.Chain' (fun a b => b.when_posted ≤ a.when_posted)
      (indexApplicants cfg today st) ∧
    List.Chain' (fun a b => b.when_posted ≤ a.when_posted) (applicant_list today st) := by
  have hj : (liveJobs today st).Pairwise jobNewerFirst :=
    List.sorted_insertionSort jobNewerFirst _
  have ha : (liveApplicants today st).Pairwise applicantNewerFirst :=
    List.sorted_insertionSort applicantNewerFirst _
  exact ⟨(hj.sublist (List.take_sublist _ _)).chain', hj.chain',
    (ha.sublist (List.take_sublist _ _)).chain', ha.chain'⟩

/-- C10: the other_time checkbox of the applicant form never influences the
result of a submission: two submissions differing only in other_time produce
identical outcomes, stores and emails. -/
theorem other_time_has_no_influence (cfg : Config) (today now : Nat) (mailOk : Bool)
    (st : Store) (ai : ApplicantPostInput) (b1 b2 : Bool) :
    submit_applicant cfg today now mailOk st { ai with other_time := b1 }
      = submit_applicant cfg today now mailOk st { ai with other_time := b2 } := by
  cases ai
  rfl

/-- C2: every listing returns only approved, non-expired posts; a post whose
expiration_date equals today is still returned by the full lists. -/
theorem listings_return_exactly_live_posts (cfg : Config) (today : Nat) (st : Store) :
    (∀ j ∈ indexJobs cfg today st, j.approved = true ∧ today ≤ j.expiration_date) ∧
    (∀ j ∈ job_list today st, j.approved = true ∧ today ≤ j.expiration_date) ∧
    (∀ a ∈ indexApplicants cfg today st,
      a.approved = true ∧ today ≤ a.expiration_date) ∧
    (∀ a ∈ applicant_list today st, a.approved = true ∧ today ≤ a.expiration_date) ∧
    (∀ j ∈ st.jobs, j.approved = true → j.expiration_date = today →
      j ∈ job_list today st) ∧
    (∀ a ∈ st.applicants, a.approved = true → a.expiration_date = today →
      a ∈ applicant_list today st) := by
  refine ⟨fun j hm => ?_, fun j hm => ?_, fun a hm => ?_, fun a hm => ?_,
    fun j hm hap hexp => ?_, fun a hm hap hexp => ?_⟩
  · have h := (mem_liveJobs_iff today st j).mp
      (List.Sublist.mem hm (List.take_sublist _ _))
    exact ⟨h.2.1, h.2.2⟩
  · have h := (mem_liveJobs_iff today st j).mp hm
    exact ⟨h.2.1, h.2.2⟩
  · have h := (mem_liveApplicants_iff today st a).mp
      (List.Sublist.mem hm (List.take_sublist _ _))
    exact ⟨h.2.1, h.2.2⟩
  · have h := (mem_liveApplicants_iff today st a).mp hm
    exact ⟨h.2.1, h.2.2⟩
  · exact (mem_liveJobs_iff today st j).mpr ⟨hm, hap, by rw [hexp]⟩
  · exact (mem_liveApplicants_iff today st a).mpr ⟨hm, hap, by rw [hexp]⟩

/-- Witness for C2: an approved job expiring exactly today is returned. -/
theorem listings_return_exactly_live_posts_witness :
    jobW ∈ storeW.jobs ∧ jobW.approved = true ∧ jobW.expiration_date = 100 ∧
    jobW ∈ job_list 100 storeW :=
  ⟨by decide, rfl, rfl,
    (listings_return_exactly_live_posts cfgW 100 storeW).2.2.2.2.1 jobW
      (by decide) rfl rfl⟩

/-- C3: on a successful submission, exactly one email goes out, to all
NotifyEmail recipients, from JOBBOARD_FROM_EMAIL, when the NotifyEmail table
is non-empty; none goes out when it is empty. -/
theorem notification_email_dispatch (cfg : Config) (today now : Nat) (st : Store)
    (ji : JobPostInput) (ai : ApplicantPostInput)
    (hj : jobPostErrors st.positions ji = [])
    (ha : applicantPostErrors st.positions ai = []) :
    (st.notifyEmails ≠ [] →
      (submit_job cfg today now true st ji).sent.length = 1 ∧
      ∀ m ∈ (submit_job cfg today now true st ji).sent,
        m.sender = cfg.fromEmail ∧ m.recipients = st.notifyEmails) ∧
    (st.notifyEmails = [] → (submit_job cfg today now true st ji).sent = []) ∧
    (st.notifyEmails ≠ [] →
      (submit_applicant cfg today now true st ai).sent.length = 1 ∧
      ∀ m ∈ (submit_applicant cfg today now true st ai).sent,
        m.sender = cfg.fromEmail ∧ m.recipients = st.notifyEmails) ∧
    (st.notifyEmails = [] → (submit_applicant cfg today now true st ai).sent = []) := by
  refine ⟨fun hn => ?_, fun hn => ?_, fun hn => ?_, fun hn => ?_⟩ <;>
    simp_all [submit_job, submit_applicant, List.isEmpty_iff]

/-- Witness for C3 at a store with one recipient and at a store with none. -/
theorem notification_email_dispatch_witness :
    storeW.notifyEmails ≠ [] ∧
    (submit_job cfgW 100 5000 true storeW jiW).sent.length = 1 ∧
    storeQuietW.notifyEmails = [] ∧
    (submit_job cfgW 100 5000 true storeQuietW jiW).sent = [] :=
  ⟨by decide,
    ((notification_email_dispatch cfgW 100 5000 storeW jiW aiW
        (by decide) (by decide)).1 (by decide)).1,
    rfl,
    (notification_email_dispatch cfgW 100 5000 storeQuietW jiW aiW
        (by decide) (by decide)).2.1 rfl⟩

/-- C4: a missing required field yields a field-level error named after it, and
any invalid submission re-renders the form with its errors while leaving the
store unchanged (no record is created, no email goes out). -/
theorem invalid_submission_rerenders_and_stores_nothing
    (cfg : Config) (today now : Nat) (mailOk : Bool) (st : Store)
    (ji : JobPostInput) (ai : ApplicantPostInput) :
    (ji.posters_name = "" → "posters_name" ∈ jobPostErrors st.positions ji) ∧
    (ji.contact_information = "" →
      "contact_information" ∈ jobPostErrors st.positions ji) ∧
    (ji.position = none → "position" ∈ jobPostErrors st.positions ji) ∧
    (ai.first_name = "" → "first_name" ∈ applicantPostErrors st.positions ai) ∧
    (ai.last_name = "" → "last_name" ∈ applicantPostErrors st.positions ai) ∧
    (ai.phone_number = "" → "phone_number" ∈ applicantPostErrors st.positions ai) ∧
    (ai.resume = "" → "resume" ∈ applicantPostErrors st.positions ai) ∧
    (ai.position = none → "position" ∈ applicantPostErrors st.positions ai) ∧
    (jobPostErrors st.positions ji ≠ [] →
      submit_job cfg today now mailOk st ji =
        { outcome := Outcome.rendered (jobPostErrors st.positions ji)
          store := st
          sent := [] }) ∧
    (applicantPostErrors st.positions ai ≠ [] →
      submit_applicant cfg today now mailOk st ai =
        { outcome := Outcome.rendered (applicantPostErrors st.positions ai)
          store := st
          sent := [] }) := by
  refine ⟨fun h => ?_, fun h => ?_, fun h => ?_, fun h => ?_, fun h => ?_,
    fun h => ?_, fun h => ?_, fun h => ?_, fun h => ?_, fun h => ?_⟩
  · simp [jobPostErrors, charFieldErrors, h]
  · simp [jobPostErrors, h]
  · simp [jobPostErrors, positionExists, h]
  · simp [applicantPostErrors, charFieldErrors, h]
  · simp [applicantPostErrors, charFieldErrors, h]
  · simp [applicantPostErrors, charFieldErrors, h]
  · simp [applicantPostErrors, h]
  · simp [applicantPostErrors, positionExists, h]
  · cases hE : jobPostErrors st.positions ji with
    | nil => exact absurd hE h
    | cons a t => simp [submit_job, hE]
  · cases hE : applicantPostErrors st.positions ai with
    | nil => exact absurd hE h
    | cons a t => simp [submit_applicant, hE]

/-- Witness for C4: a job submission missing posters_name is rejected with an
error on that field and the store stays as it was. -/
theorem invalid_submission_rerenders_and_stores_nothing_witness :
    jiBadW.posters_name = "" ∧
    "posters_name" ∈ jobPostErrors storeW.positions jiBadW ∧
    jobPostErrors storeW.positions jiBadW ≠ [] ∧
    submit_job cfgW 100 5000 true storeW jiBadW =
      { outcome := Outcome.rendered (jobPostErrors storeW.positions jiBadW)
        store := storeW
        sent := [] } :=
  ⟨rfl,
    (invalid_submission_rerenders_and_stores_nothing cfgW 100 5000 true storeW
      jiBadW aiW).1 rfl,
    by decide,
    (invalid_submission_rerenders_and_stores_nothing cfgW 100 5000 true storeW
      jiBadW aiW).2.2.2.2.2.2.2.2.1 (by decide)⟩

/-- C5: persistence precedes notification: when the mail transport fails on a
valid submission with recipients registered, the request fails hard
(mailError, not a redirect), yet the new record is already stored, unmodified. -/
theorem mail_failure_is_hard_and_record_persists
    (cfg : Config) (today now : Nat) (st : Store)
    (ji : JobPostInput) (ai : ApplicantPostInput)
    (hj : jobPostErrors st.positions ji = [])
    (ha : applicantPostErrors st.positions ai = [])
    (hn : st.notifyEmails ≠ []) :
    submit_job cfg today now false st ji =
      { outcome := Outcome.mailError
        store := { st with jobs := st.jobs ++ [newJobPost cfg today now ji] }
        sent := [] } ∧
    submit_applicant cfg today now false st ai =
      { outcome := Outcome.mailError
        store := { st with
          applicants := st.applicants ++ [newApplicantPost cfg today now ai] }
        sent := [] } := by
  have hn2 : st.notifyEmails.isEmpty = false := by simp [List.isEmpty_iff, hn]
  constructor <;> simp [submit_job, submit_applicant, hj, ha, hn2]

/-- Witness for C5 at a concrete valid submission with a failing transport. -/
theorem mail_failure_is_hard_and_record_persists_witness :
    jobPostErrors storeW.positions jiW = [] ∧
    applicantPostErrors storeW.positions aiW = [] ∧
    storeW.notifyEmails ≠ [] ∧
    submit_job cfgW 100 5000 false storeW jiW =
      { outcome := Outcome.mailError
        store := { storeW with jobs := storeW.jobs ++ [newJobPost cfgW 100 5000 jiW] }
        sent := [] } :=
  ⟨by decide, by decide, by decide,
    (mail_failure_is_hard_and_record_persists cfgW 100 5000 storeW jiW aiW
      (by decide) (by decide) (by decide)).1⟩

/-- C8: the stored name fields are the first line of the submitted strings:
the part before the first newline, the whole string when it has none. -/
theorem name_fields_truncated_to_first_line
    (cfg : Config) (today now : Nat) (st : Store)
    (ji : JobPostInput) (ai : ApplicantPostInput)
    (hj : jobPostErrors st.positions ji = [])
    (ha : applicantPostErrors st.positions ai = []) :
    (submit_job cfg today now true st ji).store.jobs
        = st.jobs ++ [newJobPost cfg today now ji] ∧
    (newJobPost cfg today now ji).posters_name = firstLine ji.posters_name ∧
    (submit_applicant cfg today now true st ai).store.applicants
        = st.applicants ++ [newApplicantPost cfg today now ai] ∧
    (newApplicantPost cfg today now ai).first_name = firstLine ai.first_name ∧
    (newApplicantPost cfg today now ai).last_name = firstLine ai.last_name ∧
    (∀ s : String, (firstLine s).data = s.data.takeWhile (fun c => c ≠ '\n')) ∧
    (∀ s : String,
      s.data = (firstLine s).data ++ s.data.dropWhile (fun c => c ≠ '\n')) ∧
    (∀ s : String, s.data.all (fun c => c ≠ '\n') → firstLine s = s) := by
  refine ⟨?_, rfl, ?_, rfl, rfl, fun s => rfl, fun s => ?_, fun s hall => ?_⟩
  · simp only [submit_job, hj, List.isEmpty_nil, if_true]
    by_cases hn : st.notifyEmails.isEmpty <;> simp [hn]
  · simp only [submit_applicant, ha, List.isEmpty_nil, if_true]
    by_cases hn : st.notifyEmails.isEmpty <;> simp [hn]
  · rw [show (firstLine s).data
        = s.data.takeWhile (fun c => decide (c ≠ '\n')) from rfl]
    exact (List.takeWhile_append_dropWhile _ _).symm
  · have ht : s.data.takeWhile (fun c => decide (c ≠ '\n')) = s.data :=
      List.takeWhile_eq_self_iff.mpr (by simpa [List.all_eq_true] using hall)
    show String.mk (s.data.takeWhile (fun c => decide (c ≠ '\n'))) = s
    rw [ht]

/-- Witness for C8: the two-line name of the concrete job submission is stored
as its first line. -/
theorem name_fields_truncated_to_first_line_witness :
    jobPostErrors storeW.positions jiW = [] ∧
    applicantPostErrors storeW.positions aiW = [] ∧
    (newJobPost cfgW 100 5000 jiW).posters_name = firstLine jiW.posters_name ∧
    firstLine jiW.posters_name = "Alice" :=
  ⟨by decide, by decide,
    (name_fields_truncated_to_first_line cfgW 100 5000 storeW jiW aiW
      (by decide) (by decide)).2.1,
    by decide⟩

/-- C9: an applicant submission with neither hour flag selected passes
validation and is accepted; its stored record has both flags false and
hours_string "unspecified", while a record with flags set yields the
comma-joined list of the selected hours. -/
theorem applicant_neither_hours_accepted_as_unspecified
    (cfg : Config) (today now : Nat) (st : Store) (ai : ApplicantPostInput)
    (ha : applicantPostErrors st.positions ai = [])
    (hf : ai.full_time = false) (hp : ai.part_time = false) :
    (submit_applicant cfg today now true st ai).outcome
        = Outcome.redirect "jobboard_thank_you" ∧
    (newApplicantPost cfg today now ai).full_time = false ∧
    (newApplicantPost cfg today now ai).part_time = false ∧
    hours_string (newApplicantPost cfg today now ai) = "unspecified" ∧
    (∀ b1 b2 b1' b2' : Bool,
      applicantPostErrors st.positions { ai with full_time := b1, part_time := b2 }
        = applicantPostErrors st.positions
            { ai with full_time := b1', part_time := b2' }) ∧
    (∀ a : ApplicantPost, a.full_time = true → a.part_time = true →
      hours_string a = "full time, part time") ∧
    (∀ a : ApplicantPost, a.full_time = true → a.part_time = false →
      hours_string a = "full time") ∧
    (∀ a : ApplicantPost, a.full_time = false → a.part_time = true →
      hours_string a = "part time") := by
  refine ⟨?_, by simp [newApplicantPost, hf], by simp [newApplicantPost, hp], ?_,
    fun b1 b2 b1' b2' => ?_, fun a h1 h2 => ?_, fun a h1 h2 => ?_, fun a h1 h2 => ?_⟩
  · simp only [submit_applicant, ha, List.isEmpty_nil, if_true]
    by_cases hn : st.notifyEmails.isEmpty <;> simp [hn]
  · simp [hours_string, newApplicantPost, hf, hp]
  · cases ai
    rfl
  · simp only [hours_string, h1, h2]
    decide
  · simp only [hours_string, h1, h2]
    decide
  · simp only [hours_string, h1, h2]
    decide

/-- Witness for C9 at the concrete applicant submission with no hour flags. -/
theorem applicant_neither_hours_accepted_as_unspecified_witness :
    applicantPostErrors storeW.positions aiW = [] ∧
    aiW.full_time = false ∧ aiW.part_time = false ∧
    hours_string (newApplicantPost cfgW 100 5000 aiW) = "unspecified" :=
  ⟨by decide, rfl, rfl,
    (applicant_neither_hours_accepted_as_unspecified cfgW 100 5000 storeW aiW
      (by decide) rfl rfl).2.2.2.1⟩

end JobBoard
